import Mathlib

/-!
Verification of the NX Witness storage calculator
(`src/nx_witness_storage_calculator.py`).

The calculation core is pure arithmetic on Python floats.  We embed it
over `ℚ`: every arithmetic operation of the source is exact rational
arithmetic, and Python's `round(x, 2)` is modelled by rounding to the
nearest multiple of `1/100`.  Python's `ZeroDivisionError` (raised by
`/` on a zero divisor) is modelled by an `Option` result on the one
operation whose divisor is caller-supplied.
-/

namespace NXWitness

/-- Python `round(x, 2)`: round to the nearest hundredth. -/
def round2 (q : ℚ) : ℚ := (round (q * 100) : ℤ) / 100

/-- Class constant `SECONDS_PER_DAY = 86400`. -/
def SECONDS_PER_DAY : ℚ := 86400

/-- Class constant `BITS_TO_BYTES = 8`. -/
def BITS_TO_BYTES : ℚ := 8

/-- Class constant `MB_TO_GB = 1024`. -/
def MB_TO_GB : ℚ := 1024

/-- Embedding of `calculate_storage_gb` (the spec's `storage_exact`):
theoretical storage `bitrate * 86400 * days / (8 * 1024)`, scaled by the
compression factor `0.356`, rounded to 2 decimals. -/
def calculate_storage_gb (bitrate_mbps days : ℚ) : ℚ :=
  let theoretical_storage :=
    (bitrate_mbps * SECONDS_PER_DAY * days) / (BITS_TO_BYTES * MB_TO_GB)
  let compression_factor : ℚ := 0.356
  round2 (theoretical_storage * compression_factor)

/-- The value of `calculate_storage_gb` before its final 2-decimal rounding. -/
def storage_unrounded (bitrate_mbps days : ℚ) : ℚ :=
  (bitrate_mbps * SECONDS_PER_DAY * days) / (BITS_TO_BYTES * MB_TO_GB) * 0.356

/-- Embedding of `calculate_storage_quick` (the spec's `storage_quick`). -/
def calculate_storage_quick (bitrate_mbps days : ℚ) : ℚ :=
  round2 (bitrate_mbps * 3.75 * days)

/-- Embedding of `calculate_storage_hourly` (the spec's `storage_for_hours`):
converts hours to days and delegates to `calculate_storage_gb`. -/
def calculate_storage_hourly (bitrate_mbps hours : ℚ) : ℚ :=
  let days := hours / 24
  calculate_storage_gb bitrate_mbps days

/-- Embedding of `calculate_effective_bitrate` (the spec's
`effective_bitrate`) with an explicit `reference_fps` argument
(the Python default fills in the instance field `reference_fps = 25`).
Python raises `ZeroDivisionError` on `fps / 0`, modelled as `none`. -/
def calculate_effective_bitrate (base_bitrate fps reference_fps : ℚ) :
    Option ℚ :=
  if reference_fps = 0 then none
  else some (round2 (base_bitrate * (fps / reference_fps)))

/-- An entry of `cameras_data`: a Python dict read with `.get`, so every
field may be absent. -/
structure CameraInput where
  name : Option String
  bitrate : Option ℚ
  fps : Option ℚ
  hours_per_day : Option ℚ
  deriving Repr, DecidableEq

/-- A per-camera record of the result dict of `calculate_multiple_cameras`. -/
structure CameraResult where
  name : String
  bitrate : ℚ
  fps : ℚ
  hours_per_day : ℚ
  effective_bitrate : ℚ
  storage_gb : ℚ
  deriving Repr, DecidableEq

/-- The result dict of `calculate_multiple_cameras`. -/
structure FleetResults where
  cameras : List CameraResult
  total_storage_gb : ℚ
  total_storage_tb : ℚ
  deriving Repr, DecidableEq

/-- One iteration of the loop of `calculate_multiple_cameras`, at 1-based
enumeration index `i`: apply the `.get` defaults, derate the bitrate by the
duty cycle `hours_per_day / 24`, and compute the camera's storage.  The
echoed `effective_bitrate` field is rounded; the storage computation uses
the unrounded value. -/
def processCamera (i : ℕ) (camera : CameraInput) (days : ℚ) : CameraResult :=
  let name := camera.name.getD ("Camera " ++ toString i)
  let bitrate := camera.bitrate.getD 0
  let fps := camera.fps.getD 25
  let hours_per_day := camera.hours_per_day.getD 24
  let effective_bitrate := bitrate * (hours_per_day / 24)
  let storage_gb := calculate_storage_gb effective_bitrate days
  { name := name, bitrate := bitrate, fps := fps,
    hours_per_day := hours_per_day,
    effective_bitrate := round2 effective_bitrate,
    storage_gb := storage_gb }

/-- The loop of `calculate_multiple_cameras` over `enumerate(cameras_data, 1)`,
starting at index `i`. -/
def processCameras (i : ℕ) (cams : List CameraInput) (days : ℚ) :
    List CameraResult :=
  match cams with
  | [] => []
  | c :: rest => processCamera i c days :: processCameras (i + 1) rest days

/-- Embedding of `calculate_multiple_cameras` (the spec's `aggregate_fleet`):
per-camera results, the accumulated `total_storage_gb`, and
`total_storage_tb = round(total_storage_gb / 1024, 2)`. -/
def calculate_multiple_cameras (cameras_data : List CameraInput) (days : ℚ) :
    FleetResults :=
  let cams := processCameras 1 cameras_data days
  let total_gb := (cams.map (fun r => r.storage_gb)).sum
  { cameras := cams
    total_storage_gb := total_gb
    total_storage_tb := round2 (total_gb / 1024) }

/-- Unfolding lemmas used to evaluate the embedding on concrete inputs. -/
theorem round2_def (q : ℚ) : round2 q = (⌊q * 100 + 1 / 2⌋ : ℤ) / 100 := by
  rw [round2, round_eq]

example : calculate_storage_gb 4 7 = 105.13 := by
  norm_num [calculate_storage_gb, round2_def, SECONDS_PER_DAY, BITS_TO_BYTES,
    MB_TO_GB]
example : calculate_storage_gb 1 1 = 3.75 := by
  norm_num [calculate_storage_gb, round2_def, SECONDS_PER_DAY, BITS_TO_BYTES,
    MB_TO_GB]
example : calculate_storage_gb 1 2 = 7.51 := by
  norm_num [calculate_storage_gb, round2_def, SECONDS_PER_DAY, BITS_TO_BYTES,
    MB_TO_GB]
example : calculate_effective_bitrate 4 30 25 = some 4.8 := by
  norm_num [calculate_effective_bitrate, round2_def]
example : calculate_storage_hourly 2 12 = 3.75 := by
  norm_num [calculate_storage_hourly, calculate_storage_gb, round2_def,
    SECONDS_PER_DAY, BITS_TO_BYTES, MB_TO_GB]

/-- Shared evaluation lemma: the storage formula as a single coefficient.
The code's `bitrate * 86400 * days / (8 * 1024) * 0.356` equals
`bitrate * days * 3.7546875` exactly. -/
theorem storage_unrounded_coeff (b d : ℚ) :
    storage_unrounded b d = b * d * 3.7546875 := by
  unfold storage_unrounded SECONDS_PER_DAY BITS_TO_BYTES MB_TO_GB
  norm_num
  ring

/-- Shared: `calculate_storage_gb` is `storage_unrounded` rounded. -/
theorem calculate_storage_gb_eq_round2_unrounded (b d : ℚ) :
    calculate_storage_gb b d = round2 (storage_unrounded b d) := rfl

/-- C1 counterexample: the claim's coefficient `3.7125` and literal `103.95`
are wrong on the code: `calculate_storage_gb 4 7` is `105.13`, not
`4 * 7 * 3.7125 = 103.95`. -/
theorem storage_exact_4_7_ne_claimed :
    calculate_storage_gb 4 7 ≠ 4 * 7 * 3.7125 ∧
      calculate_storage_gb 4 7 = 105.13 := by
  constructor
  · norm_num [calculate_storage_gb, round2_def, SECONDS_PER_DAY,
      BITS_TO_BYTES, MB_TO_GB]
  · norm_num [calculate_storage_gb, round2_def, SECONDS_PER_DAY,
      BITS_TO_BYTES, MB_TO_GB]

/-- C1 (amended): for positive bitrate and days, `calculate_storage_gb`
equals `bitrate * days * 3.7546875` rounded to 2 decimals (since
`86400 / (8 * 1024) * 0.356 = 3.7546875`), and the literal case is
`calculate_storage_gb 4 7 = 105.13`. -/
theorem storage_exact_coefficient_form :
    (∀ b d : ℚ, 0 < b → 0 < d →
        calculate_storage_gb b d = round2 (b * d * 3.7546875)) ∧
      calculate_storage_gb 4 7 = 105.13 := by
  constructor
  · intro b d _ _
    rw [calculate_storage_gb_eq_round2_unrounded, storage_unrounded_coeff]
  · norm_num [calculate_storage_gb, round2_def, SECONDS_PER_DAY,
      BITS_TO_BYTES, MB_TO_GB]

/-- C1 witness: the amended formula instantiated at bitrate 4, 7 days. -/
theorem storage_exact_coefficient_form_witness :
    calculate_storage_gb 4 7 = round2 (4 * 7 * 3.7546875) :=
  storage_exact_coefficient_form.1 4 7 (by norm_num) (by norm_num)

/-- Modelled from the spec's words: `storage_exact(bitrate_mbps, days)`
computes `bitrate_mbps * 86400 * days / (8 * 1024) * 0.356`, rounded to
2 decimal places. -/
def storage_exact_specFormula (bitrate_mbps days : ℚ) : ℚ :=
  round2 (bitrate_mbps * 86400 * days / (8 * 1024) * 0.356)

/-- C2: for every bitrate and days, `calculate_storage_gb` returns exactly
the spec's formula `bitrate * 86400 * days / (8 * 1024) * 0.356` rounded
to 2 decimal places. -/
theorem storage_exact_matches_spec_formula (b d : ℚ) :
    calculate_storage_gb b d = storage_exact_specFormula b d := rfl

/-- C4 counterexample: exact linearity in duration fails on the rounded
output: `calculate_storage_gb 1 (2 * 1) = 7.51` but
`2 * calculate_storage_gb 1 1 = 7.50`. -/
theorem storage_exact_not_linear_after_rounding :
    calculate_storage_gb 1 (2 * 1) ≠ 2 * calculate_storage_gb 1 1 := by
  norm_num [calculate_storage_gb, round2_def, SECONDS_PER_DAY, BITS_TO_BYTES,
    MB_TO_GB]

/-- C4 (amended): the scaling laws hold for the storage value before the
final 2-decimal rounding: for every `k > 0`,
`storage_unrounded bitrate (k * days) = k * storage_unrounded bitrate days`
and `storage_unrounded (k * bitrate) days = k * storage_unrounded bitrate days`;
the rounded `calculate_storage_gb` obeys them only up to rounding. -/
theorem storage_unrounded_scaling (b d k : ℚ) (hk : 0 < k) :
    storage_unrounded b (k * d) = k * storage_unrounded b d ∧
      storage_unrounded (k * b) d = k * storage_unrounded b d := by
  constructor <;> · unfold storage_unrounded; ring

/-- C4 witness: the scaling laws at bitrate 1, 1 day, factor 2. -/
theorem storage_unrounded_scaling_witness :
    storage_unrounded 1 (2 * 1) = 2 * storage_unrounded 1 1 ∧
      storage_unrounded (2 * 1) 1 = 2 * storage_unrounded 1 1 :=
  storage_unrounded_scaling 1 1 2 (by norm_num)

/-- C5 counterexample: the unrounded claim fails: at base 1, fps 1,
reference 3 the code returns `round2 (1 / 3) = 0.33`, not `1 * (1 / 3)`. -/
theorem effective_bitrate_1_1_3_ne_exact :
    calculate_effective_bitrate 1 1 3 ≠ some (1 * ((1 : ℚ) / 3)) := by
  norm_num [calculate_effective_bitrate, round2_def]

/-- C5 (amended): for every `reference_fps ≠ 0`,
`calculate_effective_bitrate` returns `base * (fps / reference_fps)`
rounded to 2 decimal places, and the literal case
`calculate_effective_bitrate 4 30 25 = some 4.8` holds (there the rounding
is the identity). -/
theorem effective_bitrate_formula :
    (∀ b f r : ℚ, r ≠ 0 →
        calculate_effective_bitrate b f r = some (round2 (b * (f / r)))) ∧
      calculate_effective_bitrate 4 30 25 = some 4.8 := by
  constructor
  · intro b f r hr
    simp [calculate_effective_bitrate, hr]
  · norm_num [calculate_effective_bitrate, round2_def]

/-- C5 witness: the amended formula instantiated at base 4, fps 30,
reference 25. -/
theorem effective_bitrate_formula_witness :
    calculate_effective_bitrate 4 30 25 = some (round2 (4 * (30 / 25))) :=
  effective_bitrate_formula.1 4 30 25 (by norm_num)

/-- C6 counterexample: `calculate_storage_hourly 2 12` is `3.75`, which is
not approximately `3.71` (it does not round to `3.71` at 2 decimals). -/
theorem storage_hourly_2_12_not_near_claimed :
    calculate_storage_hourly 2 12 = 3.75 ∧
      ¬|calculate_storage_hourly 2 12 - 3.71| < 1 / 200 := by
  have h : calculate_storage_hourly 2 12 = 3.75 := by
    norm_num [calculate_storage_hourly, calculate_storage_gb, round2_def,
      SECONDS_PER_DAY, BITS_TO_BYTES, MB_TO_GB]
  refine ⟨h, ?_⟩
  rw [h]
  norm_num [abs_of_nonneg]

/-- C6 (amended): for every bitrate and hours, `calculate_storage_hourly`
delegates to `calculate_storage_gb` at `hours / 24` days; the literal value
of `calculate_storage_hourly 2 12` is `3.75`. -/
theorem storage_hourly_delegates :
    (∀ b hrs : ℚ,
        calculate_storage_hourly b hrs = calculate_storage_gb b (hrs / 24)) ∧
      calculate_storage_hourly 2 12 = 3.75 := by
  refine ⟨fun b hrs => rfl, ?_⟩
  norm_num [calculate_storage_hourly, calculate_storage_gb, round2_def,
    SECONDS_PER_DAY, BITS_TO_BYTES, MB_TO_GB]

/-- C8: calling `calculate_effective_bitrate` with `reference_fps = 0`
signals the arithmetic fault (Python's `ZeroDivisionError`, modelled as
`none`) instead of returning a value. -/
theorem effective_bitrate_zero_reference_faults (b f : ℚ) :
    calculate_effective_bitrate b f 0 = none := by
  simp [calculate_effective_bitrate]

/-- C7 counterexample: for the one-camera fleet with bitrate 1 over 1 day,
`total_storage_gb = 3.75` but the returned `total_storage_tb` is the
rounded `round2 (3.75 / 1024) = 0`, not `3.75 / 1024`. -/
theorem fleet_tb_ne_exact_quotient :
    (calculate_multiple_cameras [⟨none, some 1, none, none⟩] 1).total_storage_tb
      ≠ (calculate_multiple_cameras [⟨none, some 1, none, none⟩] 1).total_storage_gb
        / 1024 := by
  norm_num [calculate_multiple_cameras, processCameras, processCamera,
    calculate_storage_gb, round2_def, SECONDS_PER_DAY, BITS_TO_BYTES, MB_TO_GB]

/-- C7 (amended): for every camera list and days, the returned
`total_storage_tb` equals `total_storage_gb / 1024` rounded to 2 decimal
places. -/
theorem fleet_tb_is_rounded_quotient (cams : List CameraInput) (days : ℚ) :
    (calculate_multiple_cameras cams days).total_storage_tb =
      round2 ((calculate_multiple_cameras cams days).total_storage_gb / 1024) :=
  rfl

/-- Shared: the per-camera storage values produced by the fleet loop, for
any starting enumeration index. -/
theorem processCameras_map_storage (days : ℚ) :
    ∀ (cams : List CameraInput) (i : ℕ),
      (processCameras i cams days).map (fun r => r.storage_gb) =
        cams.map (fun c =>
          calculate_storage_gb
            (c.bitrate.getD 0 * (c.hours_per_day.getD 24 / 24)) days) := by
  intro cams
  induction cams with
  | nil => intro i; rfl
  | cons c rest ih => intro i; simp [processCameras, processCamera, ih]

/-- C3: for every non-empty camera list and days, the fleet's
`total_storage_gb` equals the sum over the cameras of
`calculate_storage_gb (bitrate * (hours_per_day / 24)) days`. -/
theorem aggregate_fleet_total_is_sum (cams : List CameraInput) (days : ℚ)
    (hne : cams ≠ []) :
    (calculate_multiple_cameras cams days).total_storage_gb =
      (cams.map (fun c =>
        calculate_storage_gb
          (c.bitrate.getD 0 * (c.hours_per_day.getD 24 / 24)) days)).sum := by
  show ((processCameras 1 cams days).map (fun r => r.storage_gb)).sum = _
  rw [processCameras_map_storage]

/-- C3 witness: the fleet total at a concrete two-camera list over 7 days. -/
theorem aggregate_fleet_total_is_sum_witness :
    (calculate_multiple_cameras
        [⟨some "Cam1", some 4, some 25, some 24⟩,
          ⟨some "Cam2", some 2, some 30, some 12⟩] 7).total_storage_gb =
      ([⟨some "Cam1", some 4, some 25, some 24⟩,
          ⟨some "Cam2", some 2, some 30, some 12⟩].map
        (fun c : CameraInput =>
          calculate_storage_gb
            (c.bitrate.getD 0 * (c.hours_per_day.getD 24 / 24)) 7)).sum :=
  aggregate_fleet_total_is_sum _ 7 (by simp)

/-- Shared: indexing into the fleet loop's output at offset `idx` applies
`processCamera` at enumeration index `i + idx`. -/
theorem processCameras_getD (days : ℚ) (dflt : CameraResult) :
    ∀ (cams : List CameraInput) (i idx : ℕ), idx < cams.length →
      (processCameras i cams days).getD idx dflt =
        processCamera (i + idx) (cams.getD idx ⟨none, none, none, none⟩)
          days := by
  intro cams
  induction cams with
  | nil => intro i idx h; simp at h
  | cons c rest ih =>
    intro i idx h
    match idx with
    | 0 => rfl
    | n + 1 =>
      have hn : n < rest.length := by simpa using h
      have := ih (i + 1) n hn
      simpa [processCameras, Nat.add_assoc, Nat.add_comm 1 n] using this

/-- C9: a camera record with missing dict fields gets the loop's defaults:
missing `bitrate` is treated as `0` (and the camera contributes storage
`0`), missing `fps` as `25`, missing `hours_per_day` as `24`, and a missing
`name` as `"Camera i"` for the camera's 1-based position `i = idx + 1`. -/
theorem fleet_missing_field_defaults (days : ℚ) (cams : List CameraInput)
    (idx : ℕ) (h : idx < cams.length) :
    ((cams.getD idx ⟨none, none, none, none⟩).bitrate = none →
        ((calculate_multiple_cameras cams days).cameras.getD idx
            ⟨"", 0, 0, 0, 0, 0⟩).bitrate = 0 ∧
          ((calculate_multiple_cameras cams days).cameras.getD idx
            ⟨"", 0, 0, 0, 0, 0⟩).storage_gb = 0) ∧
      ((cams.getD idx ⟨none, none, none, none⟩).fps = none →
        ((calculate_multiple_cameras cams days).cameras.getD idx
          ⟨"", 0, 0, 0, 0, 0⟩).fps = 25) ∧
      ((cams.getD idx ⟨none, none, none, none⟩).hours_per_day = none →
        ((calculate_multiple_cameras cams days).cameras.getD idx
          ⟨"", 0, 0, 0, 0, 0⟩).hours_per_day = 24) ∧
      ((cams.getD idx ⟨none, none, none, none⟩).name = none →
        ((calculate_multiple_cameras cams days).cameras.getD idx
          ⟨"", 0, 0, 0, 0, 0⟩).name = "Camera " ++ toString (idx + 1)) := by
  have hcams : (calculate_multiple_cameras cams days).cameras =
      processCameras 1 cams days := rfl
  rw [hcams, processCameras_getD days _ cams 1 idx h]
  set c := cams.getD idx ⟨none, none, none, none⟩ with hc
  refine ⟨fun hb => ?_, fun hf => ?_, fun hh => ?_, fun hn => ?_⟩
  · constructor
    · simp [processCamera, hb]
    · simp [processCamera, hb, calculate_storage_gb, round2_def,
        SECONDS_PER_DAY, BITS_TO_BYTES, MB_TO_GB]
      norm_num
  · simp [processCamera, hf]
  · simp [processCamera, hh]
  · simp [processCamera, hn, Nat.add_comm 1 idx]

/-- C9 witness: the defaults at the all-missing one-camera list over 1 day. -/
theorem fleet_missing_field_defaults_witness :
    (([(⟨none, none, none, none⟩ : CameraInput)].getD 0
          ⟨none, none, none, none⟩).bitrate = none →
        ((calculate_multiple_cameras [⟨none, none, none, none⟩] 1).cameras.getD
            0 ⟨"", 0, 0, 0, 0, 0⟩).bitrate = 0 ∧
          ((calculate_multiple_cameras [⟨none, none, none, none⟩] 1).cameras.getD
            0 ⟨"", 0, 0, 0, 0, 0⟩).storage_gb = 0) ∧
      (([(⟨none, none, none, none⟩ : CameraInput)].getD 0
          ⟨none, none, none, none⟩).fps = none →
        ((calculate_multiple_cameras [⟨none, none, none, none⟩] 1).cameras.getD
          0 ⟨"", 0, 0, 0, 0, 0⟩).fps = 25) ∧
      (([(⟨none, none, none, none⟩ : CameraInput)].getD 0
          ⟨none, none, none, none⟩).hours_per_day = none →
        ((calculate_multiple_cameras [⟨none, none, none, none⟩] 1).cameras.getD
          0 ⟨"", 0, 0, 0, 0, 0⟩).hours_per_day = 24) ∧
      (([(⟨none, none, none, none⟩ : CameraInput)].getD 0
          ⟨none, none, none, none⟩).name = none →
        ((calculate_multiple_cameras [⟨none, none, none, none⟩] 1).cameras.getD
          0 ⟨"", 0, 0, 0, 0, 0⟩).name = "Camera " ++ toString (0 + 1)) :=
  fleet_missing_field_defaults 1 [⟨none, none, none, none⟩] 0 (by simp)

/-- Two camera records that agree on every field except possibly `fps`. -/
def agreesExceptFps (c c2 : CameraInput) : Prop :=
  c.name = c2.name ∧ c.bitrate = c2.bitrate ∧
    c.hours_per_day = c2.hours_per_day

/-- Shared: the fleet loop produces identical per-camera
`(effective_bitrate, storage_gb)` pairs on lists that differ only in
`fps`, for any starting enumeration index. -/
theorem processCameras_pairs_fps_irrelevant (days : ℚ)
    {cams cams2 : List CameraInput}
    (h : List.Forall₂ agreesExceptFps cams cams2) :
    ∀ i : ℕ,
      (processCameras i cams days).map
          (fun r => (r.effective_bitrate, r.storage_gb)) =
        (processCameras i cams2 days).map
          (fun r => (r.effective_bitrate, r.storage_gb)) := by
  induction h with
  | nil => intro i; rfl
  | cons hab htl ih =>
    intro i
    obtain ⟨-, hb, hh⟩ := hab
    simp only [processCameras, List.map_cons, ih]
    congr 1
    simp [processCamera, hb, hh]

/-- C10: for every days value, two camera lists differing only in the `fps`
field of their cameras yield the same per-camera
`(effective_bitrate, storage_gb)` values and the same `total_storage_gb`
and `total_storage_tb`. -/
theorem fleet_fps_noninterference (days : ℚ)
    (cams cams2 : List CameraInput)
    (h : List.Forall₂ agreesExceptFps cams cams2) :
    ((calculate_multiple_cameras cams days).cameras.map
        (fun r => (r.effective_bitrate, r.storage_gb)) =
      (calculate_multiple_cameras cams2 days).cameras.map
        (fun r => (r.effective_bitrate, r.storage_gb))) ∧
      (calculate_multiple_cameras cams days).total_storage_gb =
        (calculate_multiple_cameras cams2 days).total_storage_gb ∧
      (calculate_multiple_cameras cams days).total_storage_tb =
        (calculate_multiple_cameras cams2 days).total_storage_tb := by
  have hmap := processCameras_pairs_fps_irrelevant days h 1
  have hst : (processCameras 1 cams days).map (fun r => r.storage_gb) =
      (processCameras 1 cams2 days).map (fun r => r.storage_gb) := by
    have h2 := congrArg (List.map Prod.snd) hmap
    simpa [List.map_map, Function.comp] using h2
  have hgb : (calculate_multiple_cameras cams days).total_storage_gb =
      (calculate_multiple_cameras cams2 days).total_storage_gb := by
    show ((processCameras 1 cams days).map (fun r => r.storage_gb)).sum =
      ((processCameras 1 cams2 days).map (fun r => r.storage_gb)).sum
    rw [hst]
  refine ⟨hmap, hgb, ?_⟩
  show round2 ((calculate_multiple_cameras cams days).total_storage_gb / 1024)
    = round2 ((calculate_multiple_cameras cams2 days).total_storage_gb / 1024)
  rw [hgb]

/-- C10 witness: two one-camera lists that differ only in `fps` (25 vs 30)
produce identical storage outputs over 7 days. -/
theorem fleet_fps_noninterference_witness :
    ((calculate_multiple_cameras [⟨some "A", some 4, some 25, some 24⟩]
          7).cameras.map (fun r => (r.effective_bitrate, r.storage_gb)) =
      (calculate_multiple_cameras [⟨some "A", some 4, some 30, some 24⟩]
          7).cameras.map (fun r => (r.effective_bitrate, r.storage_gb))) ∧
      (calculate_multiple_cameras [⟨some "A", some 4, some 25, some 24⟩]
          7).total_storage_gb =
        (calculate_multiple_cameras [⟨some "A", some 4, some 30, some 24⟩]
          7).total_storage_gb ∧
      (calculate_multiple_cameras [⟨some "A", some 4, some 25, some 24⟩]
          7).total_storage_tb =
        (calculate_multiple_cameras [⟨some "A", some 4, some 30, some 24⟩]
          7).total_storage_tb :=
  fleet_fps_noninterference 7 _ _
    (List.Forall₂.cons ⟨rfl, rfl, rfl⟩ List.Forall₂.nil)

end NXWitness
